import Mathlib

/-!
Verification development for the `gdutils.extract` module (file
`src/gdutils/extract.py`), a single-class utility that loads a table from a
file, an archive or an in-memory frame, optionally reindexes it by a column,
optionally filters rows by value, and serializes the result.

The embedding is shallow: pandas and geopandas frames become the `Table`
structure below; the mutable attributes of the `ExtractTable` class become the
`State` structure; each property setter and public method becomes a pure
function from `State` to a result paired with the successor `State`.  External
collaborators (file parsers and writers, the well-known-text geometry parser,
the filesystem) are passed in as explicit function arguments, since the module
delegates all of that work to pandas, geopandas, shapely and the os layer.
-/

/-- Geometric values are produced by the external well-known-text parser; the
embedding keeps only an opaque token for a parsed shape. -/
abbrev Geom := String

/-- One table cell: either an ordinary (string) datum or a geometry entry,
with `Cell.geom none` standing for a missing geometry (NaN in pandas). -/
inductive Cell where
  | s (v : String)
  | geom (g : Option Geom)
deriving DecidableEq

/-- Shallow embedding of a pandas or geopandas frame: ordered column labels,
a row index, and the rows themselves (each row aligned with `cols`). -/
structure Table where
  cols : List String
  index : List Cell
  rows : List (List Cell)
deriving DecidableEq

/-- Number of rows of the frame. -/
def Table.rowCount (t : Table) : Nat := t.rows.length

/-- Position of a column label, if present (first occurrence). -/
def Table.colIdx (t : Table) (c : String) : Option Nat :=
  t.cols.findIdx? (fun x => x == c)

/-- The cells of column `c`, top to bottom, if the column exists.  This embeds
the pandas expression `table[c]` producing a Series. -/
def Table.colCells (t : Table) (c : String) : Option (List Cell) :=
  (t.colIdx c).map (fun i => t.rows.map (fun r => r.getD i (Cell.s "")))

/-- Column membership test. -/
def Table.hasCol (t : Table) (c : String) : Bool := t.cols.contains c

/-- Embeds pandas `DataFrame.set_index(c)` (line 486 and 489 of the source):
the column becomes the index and is removed from the data columns.  `none`
embeds the KeyError pandas raises when the column is absent. -/
def Table.setIndex (t : Table) (c : String) : Option Table :=
  (t.colIdx c).map (fun i =>
    { cols := t.cols.eraseIdx i
      index := t.rows.map (fun r => r.getD i (Cell.s ""))
      rows := t.rows.map (fun r => r.eraseIdx i) })

/-- Embeds `DataFrame.drop(columns=c)`; pandas would raise on a missing
column, but the source only drops a column it just read, so the identity
branch is unreachable in use. -/
def Table.dropCol (t : Table) (c : String) : Table :=
  match t.colIdx c with
  | some i =>
      { cols := t.cols.eraseIdx i
        index := t.index
        rows := t.rows.map (fun r => r.eraseIdx i) }
  | none => t

/-- Embeds `gpd.GeoDataFrame(df, geometry=series)` when `df` has no geometry
column and `series` has one entry per row (line 613): the parsed geometry
values are appended as the `geometry` column. -/
def Table.withGeomCol (t : Table) (g : List Cell) : Table :=
  { cols := t.cols ++ ["geometry"]
    index := t.index
    rows := (t.rows.zip g).map (fun p => p.1 ++ [p.2]) }

/-- Embeds `gpd.GeoDataFrame(gdf, geometry=gpd.GeoSeries())` (line 617): an
all-missing `geometry` column is appended (pandas alignment of the empty
series against `n` rows yields `n` NaN entries). -/
def Table.addEmptyGeom (t : Table) : Table :=
  { cols := t.cols ++ ["geometry"]
    index := t.index
    rows := t.rows.map (fun r => r ++ [Cell.geom none]) }

/-- Embeds pandas `.isna()` on a geometry entry. -/
def cellIsNa : Cell → Bool
  | Cell.geom none => true
  | _ => false

/-- Embeds `shapely.wkt.loads` applied to one cell (line 611).  The external
parser is the argument `wkt`; `none` is a raised exception: `loads` fails on
a malformed string and on any non-string cell. -/
def parseGeomCell (wkt : String → Option Geom) : Cell → Option Cell
  | Cell.s v => (wkt v).map (fun g => Cell.geom (some g))
  | Cell.geom _ => none

/-- Embeds `series.map(shapely.wkt.loads)` (line 611): all cells must parse,
otherwise the whole map raises. -/
def allParse (wkt : String → Option Geom) : List Cell → Option (List Cell)
  | [] => some []
  | c :: cs =>
      match parseGeomCell wkt c, allParse wkt cs with
      | some g, some gs => some (g :: gs)
      | _, _ => none

/-- Embeds `ExtractTable.__geometrize_gdf` (lines 609 to 619).  The source
tries to parse the geometry column as well-known text; if the column is
missing the attempt raises and an empty geometry column is added; if parsing
fails while a geometry column is present, the frame is returned unchanged. -/
def geometrize (wkt : String → Option Geom) (t : Table) : Table :=
  match t.colCells "geometry" with
  | some cells =>
      match allParse wkt cells with
      | some parsed => (t.dropCol "geometry").withGeomCol parsed
      | none => t
  | none => t.addEmptyGeom

/-- Embeds boolean-mask row selection `table[mask]`: keep the rows (and index
entries) whose mask entry is true. -/
def Table.filterMask (t : Table) (m : List Bool) : Table :=
  { cols := t.cols
    index := ((t.index.zip m).filter (fun p => p.2)).map (fun p => p.1)
    rows := ((t.rows.zip m).filter (fun p => p.2)).map (fun p => p.1) }

/-- Embeds pandas `DataFrame.empty` (line 719): true when an axis is empty. -/
def Table.isEmptyDF (t : Table) : Bool := t.rows.isEmpty || t.cols.isEmpty

/-- The `value` attribute of `ExtractTable`: a single string or a list of
strings (lines 90 to 91). -/
inductive Val where
  | s (v : String)
  | list (l : List String)
deriving DecidableEq

/-- Embeds the filter computation of the value setter (lines 712 to 717).
The source first evaluates `table[column] == value`; for a scalar this is an
elementwise comparison; for a list pandas compares elementwise when the list
length equals the row count and raises otherwise, in which case the `except`
branch falls back to `table[column].isin(value)`. -/
def valueMask (cells : List Cell) (v : Val) : List Bool :=
  match v with
  | Val.s sv => cells.map (fun c => c == Cell.s sv)
  | Val.list l =>
      if l.length = cells.length then
        List.zipWith (fun c s => c == Cell.s s) cells l
      else
        cells.map (fun c => l.any (fun s => Cell.s s == c))

/-- Error taxonomy.  Constructors follow the names of the specification; the
comments give the concrete Python exception raised at each site. -/
inductive Err where
  /-- `Exception("Infile ... is already set")`, line 641. -/
  | alreadyLoadedError
  /-- `FileNotFoundError`, lines 652 and 534. -/
  | notFoundError
  /-- `KeyError("Column not found ...")`, line 688. -/
  | columnNotFoundError
  /-- `KeyError` raised at lines 706 and 709 and `RuntimeError` at line 476:
  a value or listing was requested without the needed column or table. -/
  | preconditionError
  /-- `KeyError("Column ... has no value ...")`, line 720. -/
  | noMatchError
  /-- `RuntimeError("Unable to find tabular data to extract")`, lines 267,
  389 and 458. -/
  | noDataError
  /-- The explicit `IOError` raise at line 550. -/
  | ioError
  /-- `StopIteration` escaping from `next(os.walk(cwd))` at line 552 when the
  walked directory does not exist. -/
  | stopIteration
  /-- An uncaught `KeyError` from pandas (missing column in a raw access). -/
  | keyError
  /-- An uncaught `AttributeError` (attribute access on `None`). -/
  | attributeError
  /-- `RuntimeError("Extraction failed:", e)`, line 358, carrying the message
  of the first write failure. -/
  | writeError (cause : String)
  /-- Fuel exhaustion marker for the bounded recursion model of
  `extract_to_file`; unreachable for fuel at least 2. -/
  | recursionLimit
deriving DecidableEq

/-- Output paths: `pathlib.Path` values modelled as component lists. -/
abbrev FilePath' := List String

/-- Splits a character list at every occurrence of the separator (a
kernel-reducible counterpart of the library string splitter). -/
def splitChars (sep : Char) : List Char → List (List Char)
  | [] => [[]]
  | c :: cs =>
      match splitChars sep cs, decide (c = sep) with
      | r, true => [] :: r
      | [], false => [[c]]
      | h :: t, false => (c :: h) :: t

/-- Embeds `pathlib.Path(s)`: split on separators, dropping empty and
current-directory components. -/
def pathOfString (s : String) : FilePath' :=
  (((splitChars '/' s.toList).map String.mk).filter (fun c => c ≠ "" && c ≠ "."))

/-- Embeds `Path.parent` (line 355): all components but the last; the empty
list stands for the current directory. -/
def parentDir (p : FilePath') : FilePath' := p.dropLast

/-- The argument accepted by the infile setter: a path string or an
in-memory frame (lines 636 to 639). -/
inductive InfileArg where
  | path (p : String)
  | table (t : Table)
deriving DecidableEq

/-- The mutable attributes of an `ExtractTable` instance (lines 162 to 172).
`foundval` is assigned once at initialization and never used afterwards. -/
structure State where
  infile : Option String
  outfile : Option FilePath'
  column : Option String
  value : Option Val
  table : Option Table
  coldata : Option (List Cell)
  foundval : Bool
  extracted : Option Table
deriving DecidableEq

/-- The state of a freshly constructed `ExtractTable()` with no arguments
(lines 162 to 172; every setter is a no-op on all-`None` arguments except the
outfile setter, which stores `None` again). -/
def initState : State :=
  { infile := none, outfile := none, column := none, value := none
    table := none, coldata := none, foundval := false, extracted := none }

/-- Embeds the `infile` setter (lines 635 to 653).  The external reader
`rf` abstracts `ExtractTable.__read_file` (lines 497 to 514), whose leaves
are the pandas and geopandas parsers; on success it returns the resolved
member filename and the already geometrized frame.  Points to note, visible
in the source: the already-loaded guard at line 640 tests `self.__infile`,
not `self.__table`; the fallback branch at lines 646 to 649 adopts an
in-memory frame after setting `self.__infile` to `None`; for a path string
the fallback `gpd.GeoDataFrame(path)` raises, producing `FileNotFoundError`
at line 652. -/
def setInfile (wkt : String → Option Geom) (rf : String → Option (String × Table))
    (arg : Option InfileArg) (st : State) : Option Err × State :=
  match arg with
  | none => (none, st)
  | some a =>
      if st.infile.isSome then
        (some Err.alreadyLoadedError, st)
      else
        match a with
        | InfileArg.path p =>
            match rf p with
            | some nt => (none, { st with infile := some nt.1, table := some nt.2 })
            | none => (some Err.notFoundError, { st with infile := none })
        | InfileArg.table t =>
            (none, { st with infile := none, table := some (geometrize wkt t) })

/-- Embeds `pathlib.Path(filename)` inside the outfile setter: a string
always yields a path, `Path(None)` raises `TypeError`. -/
def tryPath (arg : Option String) : Option FilePath' :=
  match arg with
  | some s => some (pathOfString s)
  | none => none

/-- Embeds the `outfile` setter (lines 665 to 670): the conversion is tried
and any failure silently stores `None`. -/
def setOutfile (arg : Option String) (st : State) : Option Err × State :=
  match tryPath arg with
  | some p => (none, { st with outfile := some p })
  | none => (none, { st with outfile := none })

/-- Embeds the `column` setter (lines 682 to 691).  A `None` argument does
nothing.  Otherwise `self.__table[column]` is evaluated: it raises when the
table is `None` (TypeError) or the column is absent (KeyError), both caught
and re-raised as the `KeyError` at line 688; on success the Series is cached
in `coldata`, the column stored, and `value` reset to `None`. -/
def setColumn (arg : Option String) (st : State) : Option Err × State :=
  match arg with
  | none => (none, st)
  | some name =>
      match st.table with
      | none => (some Err.columnNotFoundError, st)
      | some t =>
          match t.colCells name with
          | none => (some Err.columnNotFoundError, st)
          | some cells =>
              (none, { st with coldata := some cells, column := some name,
                               value := none })

/-- Embeds the `value` setter (lines 703 to 723).  Order of effects as in
the source: the guards at lines 705 and 708 check table then column; the
filtered frame is assigned to `self.__extracted` at lines 712 to 717 BEFORE
the emptiness test at line 719; only a non-empty result commits `value`. -/
def setValue (arg : Option Val) (st : State) : Option Err × State :=
  match arg with
  | none => (none, st)
  | some v =>
      match st.table with
      | none => (some Err.preconditionError, st)
      | some t =>
          match st.column with
          | none => (some Err.preconditionError, st)
          | some c =>
              match t.colCells c with
              | none => (some Err.keyError, st)
              | some cells =>
                  let ex := t.filterMask (valueMask cells v)
                  if ex.isEmptyDF then
                    (some Err.noMatchError, { st with extracted := some ex })
                  else
                    (none, { st with extracted := some ex, value := some v })

/-- Embeds Python truthiness of the optional `column` string, used by the
`elif self.column:` test at line 268: `None` and the empty string are
falsy. -/
def pyTruthyStr : Option String → Bool
  | none => false
  | some s => s != ""

/-- Embeds `ExtractTable.__reindex` (lines 483 to 489): when `value` is set
the cached `extracted` frame is reindexed, otherwise the full table is; the
result is geometrized again.  Accessing `set_index` on a missing column or
on a `None` cache raises. -/
def reindex (wkt : String → Option Geom) (st : State) : Except Err Table :=
  match st.value with
  | some _ =>
      match st.extracted with
      | none => Except.error Err.attributeError
      | some ex =>
          match ex.setIndex (st.column.getD "") with
          | some u => Except.ok (geometrize wkt u)
          | none => Except.error Err.keyError
  | none =>
      match st.table with
      | none => Except.error Err.attributeError
      | some tb =>
          match tb.setIndex (st.column.getD "") with
          | some u => Except.ok (geometrize wkt u)
          | none => Except.error Err.keyError

/-- Embeds `ExtractTable.extract` (lines 219 to 271): `RuntimeError` when no
table is loaded; reindex when `self.column` is truthy; otherwise the stored
table is returned as is. -/
def extract (wkt : String → Option Geom) (st : State) : Except Err Table :=
  match st.table with
  | none => Except.error Err.noDataError
  | some t =>
      if pyTruthyStr st.column then reindex wkt st
      else Except.ok t

/-- Embeds `ExtractTable.list_columns` (lines 361 to 397).  The spatial test
`self.__has_spatial_data` reads the geometry column and raises when it is
absent. -/
def list_columns (st : State) : Except Err (List String) :=
  match st.table with
  | none => Except.error Err.noDataError
  | some t =>
      match t.colCells "geometry" with
      | none => Except.error Err.keyError
      | some gcells =>
          if !(gcells.all cellIsNa) then Except.ok t.cols
          else Except.ok (t.cols.filter (fun c => c ≠ "geometry"))

/-- Embeds `ExtractTable.list_values` (lines 400 to 476): explicit column
argument first (missing column becomes the KeyError at line 467), then the
initialized column (a missing column there is an uncaught pandas KeyError),
else the RuntimeError at line 476. -/
def list_values (st : State) (column : Option String) (unique : Bool) :
    Except Err (List Cell) :=
  match st.table with
  | none => Except.error Err.noDataError
  | some t =>
      match column with
      | some c =>
          match t.colCells c with
          | none => Except.error Err.columnNotFoundError
          | some cells => Except.ok (if unique then cells.eraseDups else cells)
      | none =>
          match st.column with
          | some c =>
              match t.colCells c with
              | none => Except.error Err.keyError
              | some cells => Except.ok (if unique then cells.eraseDups else cells)
          | none => Except.error Err.preconditionError

/-- A slice of the Python value universe, used to embed literally the guard
expression at line 549 of the source. -/
inductive PyVal where
  | pyNone
  | bool (b : Bool)
deriving DecidableEq

/-- Embeds the Python test `expr is None`. -/
def pyIsNone : PyVal → Bool
  | PyVal.pyNone => true
  | PyVal.bool _ => false

/-- Embeds `os.path.splitext(s)[0]` for ordinary file names: everything
before the last dot (names without a dot are returned whole). -/
def splitextRoot (s : String) : String :=
  let parts := splitChars '.' s.toList
  if parts.length ≤ 1 then s
  else String.mk (List.intercalate ['.'] parts.dropLast)

/-- Embeds `os.path.join(d, f)`. -/
def joinPath (d f : String) : String := d ++ "/" ++ f

/-- Embeds `ExtractTable.__unzip` (lines 539 to 553).  The external pieces
are arguments: `extractallRes` is the outcome of `zipped.extractall(cwd)`
(line 547), `isdir` is `os.path.isdir` (a total predicate returning a Python
bool), and `walk1` is `next(os.walk(cwd))` restricted to the file list, with
`none` when the walk generator is empty (missing directory), which makes
`next` raise `StopIteration`.  The guard at line 549 is embedded literally:
it compares the BOOLEAN result of `isdir` against `None`. -/
def unzip (extractallRes : Except Err Unit) (isdir : String → Bool)
    (walk1 : String → Option (List String)) (filename : String) :
    Except Err (List String) :=
  let cwd := splitextRoot filename
  match extractallRes with
  | Except.error e => Except.error e
  | Except.ok _ =>
      if pyIsNone (PyVal.bool (isdir cwd)) then Except.error Err.ioError
      else
        match walk1 cwd with
        | none => Except.error Err.stopIteration
        | some files => Except.ok (files.map (fun f => joinPath cwd f))

/-- Abstract filesystem for the write path: the set of existing
directories.  The empty component list (the current directory) always
exists. -/
structure FS where
  dirs : List FilePath'
deriving DecidableEq

/-- Every nonempty prefix of a path, shortest first, the path itself last. -/
def ancestors (d : FilePath') : List FilePath' :=
  (List.range d.length).map (fun i => d.take (i + 1))

/-- Embeds `os.makedirs(d)` without `exist_ok`: raises (`none`) when the
target already exists (the current directory always exists), otherwise
creates the target and all missing ancestors. -/
def makedirs (d : FilePath') (fs : FS) : Option FS :=
  if d = [] ∨ d ∈ fs.dirs then none
  else some ⟨fs.dirs ++ (ancestors d).filter (fun a => decide (a ∉ fs.dirs))⟩

/-- Result of a call to the write path: the raised error if any, the final
filesystem, and the number of times the dispatched write was attempted. -/
structure WriteOut where
  err : Option Err
  fs : FS
  attempts : Nat
deriving DecidableEq

/-- Embeds the try-except write skeleton of `ExtractTable.extract_to_file`
(lines 336 to 358) at a fixed effective filename.  The argument `write`
abstracts the dispatched external write call chosen at lines 338 to 352
(geospatial writers or `__extract_to_inferred_file`); it returns `none` on
success and the exception message on failure.  On failure the source runs
`os.makedirs(self.__outfile.parent)` — note: the STORED outfile, passed here
as `stored` — then re-invokes the whole method once; any failure inside that
recovery block is caught and re-raised as `RuntimeError` carrying the
ORIGINAL cause (line 358).  When `stored` is `None` the attribute access
`None.parent` itself raises inside the recovery block.  The recursion is
fuelled; since `makedirs` on the same parent cannot succeed twice, depth 2
is never exceeded and the fuel marker is unreachable for fuel at least 2. -/
def extractToFileAux (write : FS → Option String) (stored : Option FilePath') :
    Nat → FS → WriteOut
  | 0, fs => ⟨some Err.recursionLimit, fs, 0⟩
  | fuel + 1, fs =>
      match write fs with
      | none => ⟨none, fs, 1⟩
      | some e =>
          match stored with
          | none => ⟨some (Err.writeError e), fs, 1⟩
          | some p =>
              match makedirs (parentDir p) fs with
              | none => ⟨some (Err.writeError e), fs, 1⟩
              | some fs1 =>
                  let r := extractToFileAux write stored fuel fs1
                  match r.err with
                  | none => ⟨none, r.fs, r.attempts + 1⟩
                  | some _ => ⟨some (Err.writeError e), r.fs, r.attempts + 1⟩

/-- Embeds `ExtractTable.extract_to_file` (lines 274 to 358).  First
`extract()` runs (line 320), then `__has_spatial_data` reads the geometry
column of the result (line 321, raising on a frame without one), then the
effective filename is resolved (explicit argument over stored outfile,
lines 323 to 326); no filename renders to standard output; otherwise the
write skeleton above runs.  The Fiona `driver` argument only selects which
external writer is dispatched and is folded into `write`. -/
def extractToFile (wkt : String → Option Geom)
    (write : FilePath' → FS → Option String) (st : State)
    (outfileArg : Option FilePath') (fs : FS) : WriteOut :=
  match extract wkt st with
  | Except.error e => ⟨some e, fs, 0⟩
  | Except.ok gdf =>
      match gdf.colCells "geometry" with
      | none => ⟨some Err.keyError, fs, 0⟩
      | some _ =>
          match (match outfileArg with | none => st.outfile | some f => some f) with
          | none => ⟨none, fs, 0⟩
          | some f => extractToFileAux (write f) st.outfile 2 fs

/-- Embeds the constructor `ExtractTable.__init__` together with
`__sanitize_init` (lines 99 to 212): starting from the empty attribute
record, the four setters run in order, the first raised error aborting the
remaining assignments (the wrapper re-raises it as `AttributeError`). -/
def constructET (wkt : String → Option Geom)
    (rf : String → Option (String × Table)) (infileArg : Option InfileArg)
    (outfileArg : Option String) (columnArg : Option String)
    (valueArg : Option Val) : Option Err × State :=
  match setInfile wkt rf infileArg initState with
  | (some e, s1) => (some e, s1)
  | (none, s1) =>
      match setOutfile outfileArg s1 with
      | (some e, s2) => (some e, s2)
      | (none, s2) =>
          match setColumn columnArg s2 with
          | (some e, s3) => (some e, s3)
          | (none, s3) => setValue valueArg s3

/-- The attribute states an `ExtractTable` instance can be in: the empty
state of a fresh instance, closed under the four mutating setters, each
taken with arbitrary arguments and arbitrary external collaborators, and
including the state left behind by a setter that raises.  The querying
operations `extract`, `extract_to_file`, `list_columns` and `list_values`
are functions of the state and do not produce a successor state. -/
inductive Reachable : State → Prop where
  | init : Reachable initState
  | load (wkt : String → Option Geom) (rf : String → Option (String × Table))
      (arg : Option InfileArg) {s : State} :
      Reachable s → Reachable (setInfile wkt rf arg s).2
  | out (arg : Option String) {s : State} :
      Reachable s → Reachable (setOutfile arg s).2
  | col (arg : Option String) {s : State} :
      Reachable s → Reachable (setColumn arg s).2
  | val (arg : Option Val) {s : State} :
      Reachable s → Reachable (setValue arg s).2

/-- A trivial well-known-text parser used for concrete evaluations: no
string parses.  With it, `geometrize` leaves a frame whose geometry column
holds geometry cells unchanged. -/
def wkt0 : String → Option Geom := fun _ => none

/-- A reader that finds no file, used for concrete evaluations. -/
def rf0 : String → Option (String × Table) := fun _ => none

/-- A one-row demo frame with a data column and an all-missing geometry
column (the shape a loaded frame has after geometrization). -/
def T0g : Table :=
  { cols := ["c", "geometry"], index := [Cell.s "0"]
    rows := [[Cell.s "a", Cell.geom none]] }

/-- A second demo frame, distinct from `T0g`. -/
def T1 : Table :=
  { cols := ["d", "geometry"], index := [Cell.s "0"]
    rows := [[Cell.s "b", Cell.geom none]] }

/-- A reader that resolves exactly the path `f.csv` to the frame `T1`. -/
def rfDemo : String → Option (String × Table) :=
  fun p => if p = "f.csv" then some ("f.csv", T1) else none

/-- A demo frame that contains a column whose label is the empty string. -/
def Tblank : Table :=
  { cols := ["", "x", "geometry"], index := [Cell.s "7"]
    rows := [[Cell.s "a", Cell.s "b", Cell.geom none]] }

/-- State of an instance that adopted the in-memory frame `T0g`
(`ExtractTable(df)`): the table is loaded while `infile` is `None`. -/
def sAdopt : State := (setInfile wkt0 rf0 (some (InfileArg.table T0g)) initState).2

/-- `sAdopt` after `column = "c"`. -/
def sCol : State := (setColumn (some "c") sAdopt).2

/-- `sCol` after a successful `value = "a"` (the filter keeps the only
row, so `extracted` caches the full frame). -/
def sVal : State := (setValue (some (Val.s "a")) sCol).2

/-- State of an instance that adopted the frame `Tblank`. -/
def sBlank : State := (setInfile wkt0 rf0 (some (InfileArg.table Tblank)) initState).2

/-- `sBlank` after setting the column to the empty string label. -/
def sBlankCol : State := (setColumn (some "") sBlank).2

/-- A demo write collaborator: the write succeeds exactly when the parent
directory of the destination exists. -/
def writeDirOnly : FilePath' → FS → Option String :=
  fun f fs => if parentDir f ∈ fs.dirs then none else some "ENOENT"

/-- A filesystem holding no directories beyond the current one. -/
def fs0 : FS := ⟨[]⟩

/-- `sAdopt` with the stored outfile set to `a/out.csv`. -/
def sOut : State := (setOutfile (some "a/out.csv") sAdopt).2

/-- State of an instance that loaded `T1` from the path `f.csv`
(`ExtractTable("f.csv")`): both `infile` and the table are set. -/
def sPath : State := (setInfile wkt0 rfDemo (some (InfileArg.path "f.csv")) initState).2

/-- The attribute invariant of claim C8: a filter value requires a column,
and a column requires a loaded table. -/
def StateInv (s : State) : Prop :=
  (s.value.isSome → s.column.isSome) ∧ (s.column.isSome → s.table.isSome)

/-! Helper lemmas. -/

/-- A successful elementwise geometry parse preserves length. -/
theorem allParse_length (wkt : String → Option Geom) :
    ∀ (l l' : List Cell), allParse wkt l = some l' → l'.length = l.length := by
  intro l
  induction l with
  | nil =>
      intro l' h
      simp [allParse] at h
      simp [← h]
  | cons c cs ih =>
      intro l' h
      unfold allParse at h
      cases hg : parseGeomCell wkt c with
      | none => rw [hg] at h; simp at h
      | some g =>
          cases hr : allParse wkt cs with
          | none => rw [hg, hr] at h; simp at h
          | some gs =>
              rw [hg, hr] at h
              simp at h
              simp [← h, ih gs hr]

/-- A column Series has one entry per row. -/
theorem colCells_length (t : Table) (c : String) (cells : List Cell)
    (h : t.colCells c = some cells) : cells.length = t.rowCount := by
  unfold Table.colCells at h
  obtain ⟨i, _, hcells⟩ := Option.map_eq_some'.mp h
  simp [← hcells, Table.rowCount]

/-- Geometrization never touches the row index. -/
theorem geometrize_index (wkt : String → Option Geom) (t : Table) :
    (geometrize wkt t).index = t.index := by
  cases h : t.colCells "geometry" with
  | none => simp [geometrize, h, Table.addEmptyGeom]
  | some cells =>
      cases h2 : allParse wkt cells with
      | none => simp [geometrize, h, h2]
      | some parsed =>
          have h3 := h
          unfold Table.colCells at h3
          obtain ⟨i, hi, _⟩ := Option.map_eq_some'.mp h3
          simp [geometrize, h, h2, Table.withGeomCol, Table.dropCol, hi]

/-- Geometrization never changes the number of rows. -/
theorem geometrize_rowCount (wkt : String → Option Geom) (t : Table) :
    (geometrize wkt t).rowCount = t.rowCount := by
  cases h : t.colCells "geometry" with
  | none => simp [geometrize, h, Table.addEmptyGeom, Table.rowCount]
  | some cells =>
      cases h2 : allParse wkt cells with
      | none => simp [geometrize, h, h2]
      | some parsed =>
          have hp := allParse_length wkt cells parsed h2
          have hc := colCells_length t "geometry" cells h
          have h3 := h
          unfold Table.colCells at h3
          obtain ⟨i, hi, _⟩ := Option.map_eq_some'.mp h3
          simp [geometrize, h, h2, Table.withGeomCol, Table.dropCol, hi,
                Table.rowCount] at *
          omega

/-- The infile setter preserves the attribute invariant. -/
theorem stateInv_setInfile (wkt : String → Option Geom)
    (rf : String → Option (String × Table)) (arg : Option InfileArg)
    (s : State) (ih : StateInv s) : StateInv (setInfile wkt rf arg s).2 := by
  obtain ⟨ih1, ih2⟩ := ih
  cases arg with
  | none => exact ⟨ih1, ih2⟩
  | some a =>
      cases hi : s.infile with
      | some p => simp only [setInfile, hi, Option.isSome_some, if_true]; exact ⟨ih1, ih2⟩
      | none =>
          cases a with
          | path p =>
              cases hr : rf p with
              | some nt =>
                  simp only [setInfile, hi, Option.isSome_none, Bool.false_eq_true,
                             if_false, hr]
                  exact ⟨ih1, fun _ => rfl⟩
              | none =>
                  simp only [setInfile, hi, Option.isSome_none, Bool.false_eq_true,
                             if_false, hr]
                  exact ⟨ih1, ih2⟩
          | table t =>
              simp only [setInfile, hi, Option.isSome_none, Bool.false_eq_true, if_false]
              exact ⟨ih1, fun _ => rfl⟩

/-- The outfile setter preserves the attribute invariant. -/
theorem stateInv_setOutfile (arg : Option String) (s : State) (ih : StateInv s) :
    StateInv (setOutfile arg s).2 := by
  obtain ⟨ih1, ih2⟩ := ih
  cases arg with
  | none => exact ⟨ih1, ih2⟩
  | some str => exact ⟨ih1, ih2⟩

/-- The column setter preserves the attribute invariant. -/
theorem stateInv_setColumn (arg : Option String) (s : State) (ih : StateInv s) :
    StateInv (setColumn arg s).2 := by
  obtain ⟨ih1, ih2⟩ := ih
  cases arg with
  | none => exact ⟨ih1, ih2⟩
  | some name =>
      cases ht : s.table with
      | none => simp only [setColumn, ht]; exact ⟨ih1, ih2⟩
      | some t =>
          cases hc : t.colCells name with
          | none => simp only [setColumn, ht, hc]; exact ⟨ih1, ih2⟩
          | some cells =>
              simp only [setColumn, ht, hc]
              exact ⟨fun h => by simp at h, fun _ => by simp [ht]⟩

/-- The value setter preserves the attribute invariant. -/
theorem stateInv_setValue (arg : Option Val) (s : State) (ih : StateInv s) :
    StateInv (setValue arg s).2 := by
  obtain ⟨ih1, ih2⟩ := ih
  cases arg with
  | none => exact ⟨ih1, ih2⟩
  | some v =>
      cases ht : s.table with
      | none => simp only [setValue, ht]; exact ⟨ih1, ih2⟩
      | some t =>
          cases hc : s.column with
          | none => simp only [setValue, ht, hc]; exact ⟨ih1, ih2⟩
          | some c =>
              cases hcc : t.colCells c with
              | none => simp only [setValue, ht, hc, hcc]; exact ⟨ih1, ih2⟩
              | some cells =>
                  cases hE : (t.filterMask (valueMask cells v)).isEmptyDF with
                  | true =>
                      simp only [setValue, ht, hc, hcc, hE, if_true]
                      exact ⟨fun _ => by simp [hc], fun _ => by simp [ht]⟩
                  | false =>
                      simp only [setValue, ht, hc, hcc, hE, Bool.false_eq_true, if_false]
                      exact ⟨fun _ => by simp, fun _ => by simp [ht]⟩

/-- Every reachable attribute state satisfies the invariant. -/
theorem inv_of_reachable (s : State) (h : Reachable s) : StateInv s := by
  induction h with
  | init => exact ⟨fun h => by simp [initState] at h, fun h => by simp [initState] at h⟩
  | load wkt rf arg hs ih => exact stateInv_setInfile wkt rf arg _ ih
  | out arg hs ih => exact stateInv_setOutfile arg _ ih
  | col arg hs ih => exact stateInv_setColumn arg _ ih
  | val arg hs ih => exact stateInv_setValue arg _ ih

/-- The state produced by the constructor is reachable: the constructor is
the empty state followed by the four setters, aborted at the first error. -/
theorem construct_reachable (wkt : String → Option Geom)
    (rf : String → Option (String × Table)) (iArg : Option InfileArg)
    (oArg : Option String) (cArg : Option String) (vArg : Option Val) :
    Reachable (constructET wkt rf iArg oArg cArg vArg).2 := by
  unfold constructET
  have h1 : Reachable (setInfile wkt rf iArg initState).2 :=
    Reachable.load wkt rf iArg Reachable.init
  rcases hA : setInfile wkt rf iArg initState with ⟨e1, s1⟩
  rw [hA] at h1
  cases e1 with
  | some e => exact h1
  | none =>
      dsimp only
      have h2 : Reachable (setOutfile oArg s1).2 := Reachable.out oArg h1
      rcases hB : setOutfile oArg s1 with ⟨e2, s2⟩
      rw [hB] at h2
      cases e2 with
      | some e => exact h2
      | none =>
          dsimp only
          have h3 : Reachable (setColumn cArg s2).2 := Reachable.col cArg h2
          rcases hC : setColumn cArg s2 with ⟨e3, s3⟩
          rw [hC] at h3
          cases e3 with
          | some e => exact h3
          | none => exact Reachable.val vArg h3

/-- A nonempty path is among its own ancestors. -/
theorem mem_ancestors_self (d : FilePath') (h : d ≠ []) : d ∈ ancestors d := by
  unfold ancestors
  refine List.mem_map.mpr ⟨d.length - 1, List.mem_range.mpr ?_, ?_⟩
  · cases d with
    | nil => exact absurd rfl h
    | cons a l => simp
  · cases d with
    | nil => exact absurd rfl h
    | cons a l => simp

/-- A successful `makedirs` records the created directory. -/
theorem makedirs_mem (d : FilePath') (fs fs2 : FS) (h : makedirs d fs = some fs2) :
    d ∈ fs2.dirs := by
  unfold makedirs at h
  by_cases hc : d = [] ∨ d ∈ fs.dirs
  · simp [hc] at h
  · simp only [hc, if_false] at h
    push_neg at hc
    obtain ⟨hne, hnm⟩ := hc
    have h2 := Option.some.inj h
    rw [← h2]
    refine List.mem_append.mpr (Or.inr ?_)
    refine List.mem_filter.mpr ⟨mem_ancestors_self d hne, by simpa using hnm⟩

/-- An existing directory makes `makedirs` raise. -/
theorem makedirs_none_of_mem (d : FilePath') (fs : FS) (h : d ∈ fs.dirs) :
    makedirs d fs = none := by
  simp [makedirs, h]

/-! Claim theorems. -/

/-- Claim C1, counterexample.  In the state `sVal` (loaded table, column
`c`, committed value `a`, consistent cache), setting the value to `z`
(which matches no row) raises `NoMatchError` and leaves the stored value
untouched, but the cached filtered subset used by `extract()` IS replaced
by the empty filter result: the assignment at lines 712 to 717 of the
source happens before the emptiness test at line 719.  This refutes the
part of the claim asserting that the cached filtered subset is not
changed. -/
theorem setValue_nomatch_overwrites_cache_cex :
    (setValue (some (Val.s "z")) sVal).1 = some Err.noMatchError ∧
    (setValue (some (Val.s "z")) sVal).2.value = sVal.value ∧
    (setValue (some (Val.s "z")) sVal).2.extracted ≠ sVal.extracted := by
  refine ⟨by decide, by decide, by decide⟩

/-- Claim C1, amended: for every loaded table with a column set, a filter
value that selects zero rows raises `NoMatchError` and does not commit
`value`, but the cached filtered subset is overwritten with the empty
filter result before the error is raised. -/
theorem setValue_nomatch_amended (s : State) (t : Table) (c : String)
    (cells : List Cell) (v : Val)
    (h1 : s.table = some t) (h2 : s.column = some c)
    (h3 : t.colCells c = some cells)
    (h4 : (t.filterMask (valueMask cells v)).isEmptyDF = true) :
    setValue (some v) s =
      (some Err.noMatchError,
       { s with extracted := some (t.filterMask (valueMask cells v)) }) := by
  simp [setValue, h1, h2, h3, h4]

/-- Claim C1, witness for the amended theorem at the concrete state
`sVal`. -/
theorem setValue_nomatch_amended_witness :
    setValue (some (Val.s "z")) sVal =
      (some Err.noMatchError,
       { sVal with
           extracted := some (T0g.filterMask (valueMask [Cell.s "a"] (Val.s "z"))) }) :=
  setValue_nomatch_amended sVal T0g "c" [Cell.s "a"] (Val.s "z")
    (by decide) (by decide) (by decide) (by decide)

/-- Claim C2, counterexample.  `sAdopt` adopted the in-memory frame `T0g`,
so its table is loaded while `infile` is `None`; loading the path `f.csv`
afterwards raises nothing and REPLACES the loaded table with `T1`, because
the guard at line 640 of the source tests `self.__infile`, not
`self.__table`.  This refutes the claim for tables adopted from memory. -/
theorem load_after_adopt_replaces_table_cex :
    sAdopt.table = some T0g ∧
    (setInfile wkt0 rfDemo (some (InfileArg.path "f.csv")) sAdopt).1 = none ∧
    (setInfile wkt0 rfDemo (some (InfileArg.path "f.csv")) sAdopt).2.table = some T1 ∧
    T1 ≠ T0g := by
  refine ⟨by decide, by decide, by decide, by decide⟩

/-- Claim C2, amended: `AlreadyLoadedError` is raised, with the state left
unchanged, exactly when the stored `infile` path is non-null (the table was
loaded from a path) and a non-null origin is supplied; a table adopted from
an in-memory frame leaves `infile` null and is silently replaced by a later
load. -/
theorem load_already_loaded_amended (wkt : String → Option Geom)
    (rf : String → Option (String × Table)) (a : InfileArg) (s : State)
    (h : s.infile.isSome = true) :
    setInfile wkt rf (some a) s = (some Err.alreadyLoadedError, s) := by
  simp [setInfile, h]

/-- Claim C2, witness for the amended theorem at the concrete state
`sPath`, which loaded its table from the path `f.csv`. -/
theorem load_already_loaded_amended_witness :
    setInfile wkt0 rfDemo (some (InfileArg.path "x.csv")) sPath =
      (some Err.alreadyLoadedError, sPath) :=
  load_already_loaded_amended wkt0 rfDemo (InfileArg.path "x.csv") sPath (by decide)

/-- Claim C3: on a loaded table, setting the column to an existing column
label stores the label, caches its Series and unconditionally clears
`value`; a label that is not a column raises `ColumnNotFoundError` and
leaves the state (column and value included) unchanged. -/
theorem setColumn_spec (s : State) (t : Table) (name : String)
    (h : s.table = some t) :
    (∀ cells, t.colCells name = some cells →
        setColumn (some name) s =
          (none, { s with coldata := some cells, column := some name,
                          value := none })) ∧
    (t.colCells name = none →
        setColumn (some name) s = (some Err.columnNotFoundError, s)) := by
  constructor
  · intro cells hc
    simp [setColumn, h, hc]
  · intro hc
    simp [setColumn, h, hc]

/-- Claim C3, witness: both branches applied at the concrete state
`sAdopt` holding the table `T0g`. -/
theorem setColumn_spec_witness :
    setColumn (some "c") sAdopt =
      (none, { sAdopt with coldata := some [Cell.s "a"], column := some "c",
                           value := none }) ∧
    setColumn (some "zzz") sAdopt = (some Err.columnNotFoundError, sAdopt) :=
  ⟨(setColumn_spec sAdopt T0g "c" (by decide)).1 [Cell.s "a"] (by decide),
   (setColumn_spec sAdopt T0g "zzz" (by decide)).2 (by decide)⟩

/-- Claim C4: `extract()` raises `NoDataError` whenever no table is loaded;
on a reachable state with a loaded table and no column set, the value is
necessarily unset as well (attribute invariant), so the filter view equals
the stored table, and `extract()` returns that table unmodified, with no
reindex. -/
theorem extract_nodata_and_nocolumn :
    (∀ (wkt : String → Option Geom) (s : State), s.table = none →
        extract wkt s = Except.error Err.noDataError) ∧
    (∀ (wkt : String → Option Geom) (s : State) (t : Table), Reachable s →
        s.table = some t → s.column = none →
        s.value = none ∧ extract wkt s = Except.ok t) := by
  constructor
  · intro wkt s h
    simp [extract, h]
  · intro wkt s t hr ht hc
    have hv : s.value = none := by
      have h1 := (inv_of_reachable s hr).1
      cases hval : s.value with
      | none => rfl
      | some v =>
          have h2 := h1 (by simp [hval])
          simp [hc] at h2
    exact ⟨hv, by simp [extract, ht, hc, pyTruthyStr]⟩

/-- Claim C4, witness: the empty state for the unloaded branch, and the
reachable state `sAdopt` for the loaded, column-unset branch. -/
theorem extract_nodata_and_nocolumn_witness :
    extract wkt0 initState = Except.error Err.noDataError ∧
    (sAdopt.value = none ∧ extract wkt0 sAdopt = Except.ok T0g) :=
  ⟨extract_nodata_and_nocolumn.1 wkt0 initState rfl,
   extract_nodata_and_nocolumn.2 wkt0 sAdopt T0g
     (by exact Reachable.load wkt0 rf0 (some (InfileArg.table T0g)) Reachable.init)
     (by decide) (by decide)⟩

/-- Claim C9: the outfile setter never raises; a string argument is stored
as the corresponding path and any other argument, the null argument
included, silently resets the outfile to null, all other attributes
untouched. -/
theorem setOutfile_total_spec (s : State) (arg : Option String) :
    (setOutfile arg s).1 = none ∧
    (setOutfile arg s).2 = { s with outfile := arg.map pathOfString } := by
  cases arg with
  | none => exact ⟨rfl, rfl⟩
  | some str => exact ⟨rfl, rfl⟩

/-- Claim C10: on a loaded table containing a column labelled by the empty
string, setting the column to that label succeeds and stores it, yet
`extract()` behaves as if no column were set, returning the table without
reindexing, because the truthiness test `elif self.column:` at line 268 of
the source treats the empty string as false. -/
theorem setColumn_empty_string_truthiness (wkt : String → Option Geom)
    (s : State) (t : Table) (cells : List Cell)
    (h1 : s.table = some t) (h2 : t.colCells "" = some cells) :
    (setColumn (some "") s).1 = none ∧
    (setColumn (some "") s).2.column = some "" ∧
    extract wkt (setColumn (some "") s).2 = Except.ok t := by
  refine ⟨?_, ?_, ?_⟩ <;> simp [setColumn, h1, h2, extract, pyTruthyStr]

/-- Claim C10, witness at the concrete state `sBlank` holding the table
`Tblank`, whose first column is labelled by the empty string. -/
theorem setColumn_empty_string_truthiness_witness :
    (setColumn (some "") sBlank).1 = none ∧
    (setColumn (some "") sBlank).2.column = some "" ∧
    extract wkt0 (setColumn (some "") sBlank).2 = Except.ok Tblank :=
  setColumn_empty_string_truthiness wkt0 sBlank Tblank [Cell.s "a"]
    (by decide) (by decide)

/-- Claim C5, counterexample.  The table `Tblank` contains a column
labelled by the empty string; `setColumn("")` succeeds, yet the following
`extract()` returns the table with its ORIGINAL index: the result index is
not derived from the chosen column, because the truthiness test at line 268
of the source skips the reindex for a falsy column label.  This refutes the
claim as universally quantified over all columns present in the table. -/
theorem setColumn_empty_extract_no_reindex_cex :
    (setColumn (some "") sBlank).1 = none ∧
    extract wkt0 sBlankCol = Except.ok Tblank ∧
    some Tblank.index ≠ Tblank.colCells "" := by
  refine ⟨by decide, rfl, by decide⟩

/-- Claim C5, amended: for every loaded table and every column present in
it whose label is a non-empty string, `setColumn` followed by `extract()`
returns a table whose index is exactly the cells of that column and whose
row count equals the row count of the original table. -/
theorem setColumn_extract_reindex_amended (wkt : String → Option Geom)
    (s : State) (t : Table) (c : String) (cells : List Cell)
    (h1 : s.table = some t) (h2 : t.colCells c = some cells) (h3 : c ≠ "") :
    ∃ u, extract wkt (setColumn (some c) s).2 = Except.ok u ∧
      u.index = cells ∧ u.rowCount = t.rowCount := by
  have h4 := h2
  unfold Table.colCells at h4
  obtain ⟨i, hi, hcells⟩ := Option.map_eq_some'.mp h4
  have hset : (setColumn (some c) s).2 =
      { s with coldata := some cells, column := some c, value := none } := by
    simp [setColumn, h1, h2]
  refine ⟨geometrize wkt
    { cols := t.cols.eraseIdx i
      index := t.rows.map (fun r => r.getD i (Cell.s ""))
      rows := t.rows.map (fun r => r.eraseIdx i) }, ?_, ?_, ?_⟩
  · rw [hset]
    simp [extract, pyTruthyStr, h3, reindex, h1, Table.setIndex, hi]
  · rw [geometrize_index]
    exact hcells
  · rw [geometrize_rowCount]
    simp [Table.rowCount]

/-- Claim C5, witness for the amended theorem: the state `sAdopt` holding
`T0g`, reindexed by its column `c`. -/
theorem setColumn_extract_reindex_amended_witness :
    ∃ u, extract wkt0 (setColumn (some "c") sAdopt).2 = Except.ok u ∧
      u.index = [Cell.s "a"] ∧ u.rowCount = T0g.rowCount :=
  setColumn_extract_reindex_amended wkt0 sAdopt T0g "c" [Cell.s "a"]
    (by decide) (by decide) (by decide)

/-- Claim C7 is a code bug: the guard at line 549 of the source reads
`if os.path.isdir(cwd) is None:`, and `os.path.isdir` returns a boolean,
never `None`, so the explicit `IOError` at line 550 is unreachable whenever
extraction itself succeeded; a target directory that cannot be read back
instead makes `next(os.walk(cwd))` at line 552 raise `StopIteration`.  The
first conjunct shows the `IOError` branch can never fire; the second
evaluates the model at a concrete archive whose target directory is
missing, observing `StopIteration` where the claim and the specification
require `IOError`. -/
theorem unzip_guard_never_fires :
    (∀ (isdir : String → Bool) (walk1 : String → Option (List String))
        (fn : String),
        unzip (Except.ok ()) isdir walk1 fn ≠ Except.error Err.ioError) ∧
    unzip (Except.ok ()) (fun _ => false) (fun _ => none) "archive.zip" =
      Except.error Err.stopIteration := by
  constructor
  · intro isdir walk1 fn
    simp only [unzip, pyIsNone, Bool.false_eq_true, if_false]
    cases walk1 (splitextRoot fn) <;> simp
  · rfl

/-- Claim C8: in every reachable attribute state, a non-null `value`
implies a non-null `column`, and a non-null `column` implies a loaded
table.  Construction is covered because the constructor is the empty state
followed by the four setters (`construct_reachable`); the querying
operations `extract`, `extract_to_file`, `list_columns` and `list_values`
take the state as input and return no successor state, so they preserve
every state property trivially. -/
theorem reachable_state_invariant (s : State) (h : Reachable s) :
    (s.value.isSome → s.column.isSome) ∧ (s.column.isSome → s.table.isSome) :=
  inv_of_reachable s h

/-- Claim C8, witness: the invariant instantiated at the empty initial
state. -/
theorem reachable_state_invariant_witness :
    (initState.value.isSome → initState.column.isSome) ∧
    (initState.column.isSome → initState.table.isSome) :=
  reachable_state_invariant initState Reachable.init

/-- Claim C6, counterexample.  `sAdopt` has a loaded table and NO stored
outfile; `extract_to_file` is called with the explicit destination
`a/out.csv` whose directory `a` does not exist, so the write fails for
exactly that reason.  The recovery block then evaluates
`self.__outfile.parent` on `None` and raises before any directory creation
or retry: the result shows one single write attempt and an unchanged
filesystem, refuting the claim that the directory tree is created once and
the write retried exactly once for EVERY call with a destination path. -/
theorem extract_to_file_no_retry_cex :
    extractToFile wkt0 writeDirOnly sAdopt (some ["a", "out.csv"]) fs0 =
      { err := some (Err.writeError "ENOENT"), fs := fs0, attempts := 1 } := by
  decide

/-- Unrolling of the write-retry skeleton at fuel `fuel + 2` in the claimed
scenario: first write fails, the stored parent directory is created, the
write is retried exactly once, and a second failure surfaces the ORIGINAL
cause. -/
theorem extractToFileAux_retry (write : FS → Option String) (f : FilePath')
    (fs fs2 : FS) (e1 : String) (fuel : Nat)
    (h6 : write fs = some e1) (hmk : makedirs (parentDir f) fs = some fs2)
    (hmk2 : makedirs (parentDir f) fs2 = none) :
    extractToFileAux write (some f) (fuel + 2) fs =
      { err := match write fs2 with
               | none => none
               | some _ => some (Err.writeError e1)
        fs := fs2
        attempts := 2 } := by
  have hstep : extractToFileAux write (some f) (fuel + 1 + 1) fs =
      match write fs with
      | none => ⟨none, fs, 1⟩
      | some e =>
          match makedirs (parentDir f) fs with
          | none => ⟨some (Err.writeError e), fs, 1⟩
          | some fs1 =>
              let r := extractToFileAux write (some f) (fuel + 1) fs1
              match r.err with
              | none => ⟨none, r.fs, r.attempts + 1⟩
              | some _ => ⟨some (Err.writeError e), r.fs, r.attempts + 1⟩ := rfl
  rw [show fuel + 2 = fuel + 1 + 1 from rfl, hstep, h6, hmk]
  have hstep2 : extractToFileAux write (some f) (fuel + 1) fs2 =
      match write fs2 with
      | none => ⟨none, fs2, 1⟩
      | some e =>
          match makedirs (parentDir f) fs2 with
          | none => ⟨some (Err.writeError e), fs2, 1⟩
          | some fs1 =>
              let r := extractToFileAux write (some f) fuel fs1
              match r.err with
              | none => ⟨none, r.fs, r.attempts + 1⟩
              | some _ => ⟨some (Err.writeError e), r.fs, r.attempts + 1⟩ := rfl
  cases hw2 : write fs2 with
  | none => simp [hstep2, hw2]
  | some e2 => simp [hstep2, hw2, hmk2]

/-- Claim C6, amended: the mkdir-and-retry recovery works as claimed only
when the destination is the STORED outfile.  With a loaded table, a stored
outfile whose parent directory is missing, and a first write failure, the
missing directory tree is created once, the entire write is retried exactly
once, and a second failure raises `WriteError` surfacing the original
cause; when the destination is supplied only as an explicit argument while
the stored outfile is null, no directory is created, there is no retry, and
the failure surfaces immediately (the counterexample above). -/
theorem extract_to_file_retry_amended (wkt : String → Option Geom)
    (write : FilePath' → FS → Option String) (s : State) (t : Table)
    (gcells : List Cell) (f : FilePath') (fs : FS) (e1 : String)
    (h1 : s.table = some t) (h2 : pyTruthyStr s.column = false)
    (hg : t.colCells "geometry" = some gcells)
    (h3 : s.outfile = some f) (h4 : parentDir f ≠ [])
    (h5 : parentDir f ∉ fs.dirs) (h6 : write f fs = some e1) :
    ∃ fs2, makedirs (parentDir f) fs = some fs2 ∧
      extractToFile wkt write s none fs =
        { err := match write f fs2 with
                 | none => none
                 | some _ => some (Err.writeError e1)
          fs := fs2
          attempts := 2 } := by
  have hmk : makedirs (parentDir f) fs =
      some ⟨fs.dirs ++
            (ancestors (parentDir f)).filter (fun a => decide (a ∉ fs.dirs))⟩ := by
    simp [makedirs, h4, h5]
  refine ⟨_, hmk, ?_⟩
  have hmem := makedirs_mem _ _ _ hmk
  have hmk2 := makedirs_none_of_mem _ _ hmem
  have hex : extract wkt s = Except.ok t := by
    simp [extract, h1, h2]
  unfold extractToFile
  rw [hex]
  simp only [hg, h3]
  exact extractToFileAux_retry (write f) f fs _ e1 0 h6 hmk hmk2

/-- Claim C6, witness for the amended theorem: the state `sOut` stores the
outfile `a/out.csv`, the directory `a` is missing, and the demo writer
fails exactly while the parent directory is absent, so here the retried
write succeeds. -/
theorem extract_to_file_retry_amended_witness :
    ∃ fs2, makedirs (parentDir ["a", "out.csv"]) fs0 = some fs2 ∧
      extractToFile wkt0 writeDirOnly sOut none fs0 =
        { err := match writeDirOnly ["a", "out.csv"] fs2 with
                 | none => none
                 | some _ => some (Err.writeError "ENOENT")
          fs := fs2
          attempts := 2 } :=
  extract_to_file_retry_amended wkt0 writeDirOnly sOut T0g [Cell.geom none]
    ["a", "out.csv"] fs0 "ENOENT" (by decide) (by decide) (by decide)
    (by decide) (by decide) (by decide) (by decide)
